import Mathlib

/-!
Verification of the UNIZIK academic-assistant bot (src/main.py).

Shallow embedding conventions:
* Text is modelled as `Str := List Char`, the sequence of code points of a
  Python `str`.  Python string operations are embedded over the ASCII
  fragment they are exercised on: `str.lower` becomes `Char.toLower` mapped
  over the list, `in` (substring containment) becomes `containsSub`,
  `str.strip` becomes `pyStrip`, slicing `[:n]` becomes `List.take`.
* The regular expression `^\s*(what|why|how|explain|define|show|compare|calculate)\b`
  used by `is_educational` is embedded as `leadWordMatch`: skip the maximal
  run of leading whitespace, then require one of the lead words followed by
  a non-word character or the end of the text.  (Without `re.MULTILINE` the
  anchor `^` only matches at the start of the string, and none of the lead
  words begins with whitespace or is a prefix of another, so this is the
  exact acceptance condition of `re.search` on that pattern.)
* `EDU_KEYWORDS` is a Python `set`; only membership-style queries
  (`any kw in t`) are performed, which are order-independent, so it is
  embedded as a list.
* The Gemini backend is an external collaborator.  A call is modelled by the
  request record `GeminiRequest` that `ask_gemini` builds (model name,
  prompt contents, `max_output_tokens`, temperature) together with an
  outcome oracle `GeminiRequest → BackendOutcome` standing for the network:
  either some raw response text or a raised exception.  The sampling
  temperature 0.2 is recorded exactly as tenths (`temperature_tenths = 2`)
  to stay within exact arithmetic.
* `handle_message` returns a `HandleResult`: the single reply text sent back
  over the transport, the list of backend requests issued (in order), and
  whether `logging.exception` ran.  The system prompt (read from
  `prompts/system_prompt.txt` at startup, not part of the sources) is a
  parameter.
-/

abbrev Str := List Char

/-- Python `needle in hay`: contiguous-substring containment. -/
def containsSub (needle : Str) : Str → Bool
  | [] => needle.isEmpty
  | c :: rest => needle.isPrefixOf (c :: rest) || containsSub needle rest

/-- Python `str.lower()` on the ASCII fragment. -/
def lower (s : Str) : Str := s.map Char.toLower

/-- Python `\s` / `str.strip` whitespace class (ASCII fragment):
space, tab, newline, carriage return, vertical tab, form feed. -/
def isSpace (c : Char) : Bool :=
  c = ' ' || c = '\t' || c = '\n' || c = '\r' || c = '\x0b' || c = '\x0c'

/-- Python regex word character `\w` (ASCII fragment): `[a-zA-Z0-9_]`. -/
def isWordChar (c : Char) : Bool := c.isAlphanum || c = '_'

/-- Python `str.strip()`: drop whitespace from both ends. -/
def pyStrip (s : Str) : Str :=
  ((s.dropWhile isSpace).reverse.dropWhile isSpace).reverse

/-- main.py line 54: the `EDU_KEYWORDS` vocabulary. -/
def EDU_KEYWORDS : List Str :=
  ["define", "definition", "explain", "what", "why", "how", "solve", "calculate",
   "theorem", "proof", "example", "syllabus", "lecture", "course", "exam", "past question",
   "assignment", "lecture notes", "tutorial", "lab", "practical", "essay", "reading",
   "unizik", "nnamdi azikiwe", "nnamdi azikiwe university", "faculty", "department",
   "semester", "result", "timetable"].map String.data

/-- main.py line 68: the lead-word alternatives of the anchored regex. -/
def LEAD_WORDS : List Str :=
  ["what", "why", "how", "explain", "define", "show", "compare", "calculate"].map String.data

/-- Acceptance condition of
`re.search(r"^\s*(what|why|how|explain|define|show|compare|calculate)\b", t)`. -/
def leadWordMatch (t : Str) : Bool :=
  let rest := t.dropWhile isSpace
  LEAD_WORDS.any (fun w =>
    w.isPrefixOf rest &&
    match rest.drop w.length with
    | [] => true
    | c :: _ => !isWordChar c)

/-- main.py lines 62-74: `is_educational`. -/
def is_educational (text : Str) : Bool :=
  let t := lower text
  if containsSub ("unizik".data) t || containsSub ("nnamdi azikiwe".data) t then true
  else if leadWordMatch t then true
  else if EDU_KEYWORDS.any (fun kw => containsSub kw t) then true
  else false

/-- main.py line 78: the creator-identity phrases. -/
def CREATOR_PHRASES : List Str :=
  ["who created you", "who made you", "who developed you", "who is your creator",
   "your creator"].map String.data

/-- main.py lines 76-78: `is_creator_query`. -/
def is_creator_query (text : Str) : Bool :=
  let t := lower text
  CREATOR_PHRASES.any (fun p => containsSub p t)

/-- main.py line 82: the creator-contact phrases. -/
def CREATOR_INFO_PHRASES : List Str :=
  ["creator info", "owner info", "contact the creator", "contact info",
   "who is okafor", "how to contact okafor", "my info"].map String.data

/-- main.py lines 80-82: `is_creator_info_query`. -/
def is_creator_info_query (text : Str) : Bool :=
  let t := lower text
  CREATOR_INFO_PHRASES.any (fun p => containsSub p t)

/-- The four routing intents of the message handler (spec section 3). -/
inductive Intent where
  | CreatorIdentity
  | CreatorContact
  | Educational
  | Rejected
  deriving DecidableEq, Repr

/-- The intent assigned by the dispatch order of `handle_message`
(main.py lines 106-121): identity check, then contact check, then
educational check, then rejection. -/
def classify (text : Str) : Intent :=
  if is_creator_query text then Intent.CreatorIdentity
  else if is_creator_info_query text then Intent.CreatorContact
  else if is_educational text then Intent.Educational
  else Intent.Rejected

/-- main.py line 32. -/
def CREATOR_NAME : Str := "OKAFOR EMMANUEL IKE".data

/-- main.py line 33. -/
def CREATOR_WHATSAPP : Str := "https://wa.link/i7s2lh".data

/-- main.py line 51. -/
def GEN_MODEL : Str := "gemini-2.5-flash".data

/-- main.py line 110, the f-string expanded. -/
def CREATOR_REPLY : Str :=
  "I was created by ".data ++ CREATOR_NAME ++ ".".data

/-- main.py line 113, the f-string expanded. -/
def CREATOR_INFO_REPLY : Str :=
  "Contact the creator: ".data ++ CREATOR_NAME ++ "\nWhatsApp: ".data ++ CREATOR_WHATSAPP

/-- main.py lines 118-120. -/
def REJECTION_REPLY : Str :=
  ("I can only help with educational questions or UNIZIK-related academic topics. " ++
   "Please ask a question about a course, concept, syllabus, exam, or UNIZIK-specific info.").data

/-- main.py line 128 (em dash and ASCII apostrophe as in the source). -/
def APOLOGY_REPLY : Str :=
  "Sorry — I couldn\u0027t reach the AI service right now.".data

/-- main.py line 134: the truncation marker appended to over-long answers. -/
def TRUNC_MARKER : Str := "\n\n[answer truncated]".data

/-- main.py line 87: the user-turn marker of the prompt payload. -/
def USER_MARKER : Str := "\n\nUser: ".data

/-- main.py line 87: the assistant-turn marker of the prompt payload. -/
def ASSISTANT_MARKER : Str := "\n\nAssistant:".data

/-- The request `ask_gemini` sends (main.py lines 85-93): model name, the
single concatenated prompt payload, the generation ceiling, and the sampling
temperature in tenths (0.2 becomes 2). -/
structure GeminiRequest where
  model : Str
  contents : Str
  max_output_tokens : Nat
  temperature_tenths : Nat
  deriving DecidableEq, Repr

/-- main.py lines 85-93: the request built by `ask_gemini systemPrompt prompt`
with the default `max_output_tokens = 800`. -/
def ask_gemini_request (systemPrompt prompt : Str) : GeminiRequest :=
  { model := GEN_MODEL
    contents := systemPrompt ++ USER_MARKER ++ prompt ++ ASSISTANT_MARKER
    max_output_tokens := 800
    temperature_tenths := 2 }

/-- Outcome of one backend call: the raw response text (whichever of
`resp.text` / `resp.output` the client exposes), or a raised exception. -/
inductive BackendOutcome where
  | success (raw : Str)
  | failure
  deriving Repr

/-- main.py lines 95-98: on success `ask_gemini` returns the response text
stripped of surrounding whitespace (both the `.text` and the fallback
branch call `.strip()`). -/
def ask_gemini_result (raw : Str) : Str := pyStrip raw

/-- Observable outcome of `handle_message` on one inbound message: the reply
sent back, the backend requests issued (in order), and whether
`logging.exception` ran. -/
structure HandleResult where
  reply : Str
  calls : List GeminiRequest
  loggedError : Bool
  deriving Repr

/-- main.py lines 106-135: `handle_message`, with the backend network
modelled as an outcome oracle. -/
def handle_message (systemPrompt text : Str)
    (backend : GeminiRequest → BackendOutcome) : HandleResult :=
  if is_creator_query text then
    { reply := CREATOR_REPLY, calls := [], loggedError := false }
  else if is_creator_info_query text then
    { reply := CREATOR_INFO_REPLY, calls := [], loggedError := false }
  else if !is_educational text then
    { reply := REJECTION_REPLY, calls := [], loggedError := false }
  else
    let req := ask_gemini_request systemPrompt text
    match backend req with
    | BackendOutcome.failure =>
      { reply := APOLOGY_REPLY, calls := [req], loggedError := true }
    | BackendOutcome.success raw =>
      let answer := ask_gemini_result raw
      let answer2 :=
        if answer.length > 4000 then answer.take 3990 ++ TRUNC_MARKER else answer
      { reply := answer2, calls := [req], loggedError := false }

/-! ## Helper lemmas -/

lemma dropWhile_eq_self_of_all (p : Char → Bool) (l : Str)
    (h : ∀ c ∈ l, p c = false) : List.dropWhile p l = l := by
  cases l with
  | nil => rfl
  | cons c rest => simp [List.dropWhile_cons, h c (by simp)]

lemma pyStrip_eq_self (l : Str) (h : ∀ c ∈ l, isSpace c = false) : pyStrip l = l := by
  unfold pyStrip
  rw [dropWhile_eq_self_of_all isSpace l h,
      dropWhile_eq_self_of_all isSpace l.reverse (by intro c hc; exact h c (List.mem_reverse.mp hc)),
      List.reverse_reverse]

lemma classify_iffs (t : Str) :
    (classify t = Intent.CreatorIdentity ↔ is_creator_query t = true) ∧
    (classify t = Intent.CreatorContact ↔
      (is_creator_query t = false ∧ is_creator_info_query t = true)) ∧
    (classify t = Intent.Educational ↔
      (is_creator_query t = false ∧ is_creator_info_query t = false ∧
        is_educational t = true)) ∧
    (classify t = Intent.Rejected ↔
      (is_creator_query t = false ∧ is_creator_info_query t = false ∧
        is_educational t = false)) := by
  cases h1 : is_creator_query t <;> cases h2 : is_creator_info_query t <;>
    cases h3 : is_educational t <;> simp [classify, h1, h2, h3]

lemma is_educational_iff (text : Str) :
    is_educational text = true ↔
      (containsSub ("unizik".data) (lower text) = true ∨
       containsSub ("nnamdi azikiwe".data) (lower text) = true) ∨
      leadWordMatch (lower text) = true ∨
      EDU_KEYWORDS.any (fun kw => containsSub kw (lower text)) = true := by
  cases h1 : containsSub ("unizik".data) (lower text) <;>
    cases h2 : containsSub ("nnamdi azikiwe".data) (lower text) <;>
      cases h3 : leadWordMatch (lower text) <;>
        cases h4 : EDU_KEYWORDS.any (fun kw => containsSub kw (lower text)) <;>
          simp [is_educational, h1, h2, h3, h4]

lemma handle_message_success (sp text raw : Str)
    (h1 : is_creator_query text = false) (h2 : is_creator_info_query text = false)
    (h3 : is_educational text = true) :
    handle_message sp text (fun _ => BackendOutcome.success raw) =
      { reply := if (pyStrip raw).length > 4000
                 then (pyStrip raw).take 3990 ++ TRUNC_MARKER else pyStrip raw,
        calls := [ask_gemini_request sp text], loggedError := false } := by
  simp [handle_message, h1, h2, h3, ask_gemini_result]

lemma handle_message_failure (sp text : Str)
    (h1 : is_creator_query text = false) (h2 : is_creator_info_query text = false)
    (h3 : is_educational text = true) :
    handle_message sp text (fun _ => BackendOutcome.failure) =
      { reply := APOLOGY_REPLY, calls := [ask_gemini_request sp text],
        loggedError := true } := by
  simp [handle_message, h1, h2, h3]

/-! ## Claim theorems -/

/-- Claim C1, counterexample: on an Educational message whose stripped backend
output has 4001 characters, the reply sent to the user has 4010 characters,
so the reply does NOT have length at most 4000 as the claim states. -/
theorem C1_counterexample :
    (handle_message [] ("what".data)
        (fun _ => BackendOutcome.success (List.replicate 4001 'a'))).reply.length = 4010 ∧
    ¬ ((handle_message [] ("what".data)
        (fun _ => BackendOutcome.success (List.replicate 4001 'a'))).reply.length ≤ 4000) := by
  have hs : pyStrip (List.replicate 4001 'a') = List.replicate 4001 'a' :=
    pyStrip_eq_self _ (by
      intro c hc
      rw [List.eq_of_mem_replicate hc]
      rfl)
  have hreply := handle_message_success [] ("what".data) (List.replicate 4001 'a')
      (by decide) (by decide) (by decide)
  rw [hreply]
  simp only [hs, List.length_replicate]
  rw [if_pos (by omega)]
  have hm : TRUNC_MARKER.length = 20 := rfl
  rw [List.length_append, List.length_take, List.length_replicate, hm]
  omega

/-- Claim C1, amended: for every Educational-intent message on which the
backend call succeeds, if the stripped backend output exceeds 4000 characters
then the reply is exactly the first 3990 characters of the output followed by
the marker and has length exactly 4010 characters (not at most 4000); outputs
of length at most 4000 are passed through unmodified. -/
theorem C1_truncation (sp text raw : Str) (h : classify text = Intent.Educational) :
    (4000 < (pyStrip raw).length →
      (handle_message sp text (fun _ => BackendOutcome.success raw)).reply
        = (pyStrip raw).take 3990 ++ TRUNC_MARKER ∧
      (handle_message sp text (fun _ => BackendOutcome.success raw)).reply.length = 4010) ∧
    ((pyStrip raw).length ≤ 4000 →
      (handle_message sp text (fun _ => BackendOutcome.success raw)).reply = pyStrip raw) := by
  obtain ⟨h1, h2, h3⟩ := (classify_iffs text).2.2.1.mp h
  rw [handle_message_success sp text raw h1 h2 h3]
  constructor
  · intro hlen
    rw [if_pos (by omega)]
    refine ⟨rfl, ?_⟩
    have hm : TRUNC_MARKER.length = 20 := rfl
    rw [List.length_append, List.length_take, hm, Nat.min_eq_left (by omega)]
  · intro hle
    rw [if_neg (by omega)]

/-- Claim C1, witness for the amended theorem at a concrete short output. -/
theorem C1_witness :
    (handle_message [] ("what".data)
        (fun _ => BackendOutcome.success ("  hi  ".data))).reply = pyStrip ("  hi  ".data) :=
  (C1_truncation [] ("what".data) ("  hi  ".data) (by decide)).2 (by decide)

/-- Claim C2: exactly one Intent is assigned per text, and the assignment
short-circuits in the fixed order: CreatorIdentity first, CreatorContact only
if the identity check failed, Educational only if neither creator check
matched, Rejected only when none matched. -/
theorem C2_classification_order (t : Str) :
    (classify t = Intent.CreatorIdentity ↔ is_creator_query t = true) ∧
    (classify t = Intent.CreatorContact ↔
      (is_creator_query t = false ∧ is_creator_info_query t = true)) ∧
    (classify t = Intent.Educational ↔
      (is_creator_query t = false ∧ is_creator_info_query t = false ∧
        is_educational t = true)) ∧
    (classify t = Intent.Rejected ↔
      (is_creator_query t = false ∧ is_creator_info_query t = false ∧
        is_educational t = false)) :=
  classify_iffs t

/-- Claim C3: on an Educational-intent message whose backend call fails,
`handle_message` returns exactly the fixed apology string, records the
failure for operators, and issues exactly one backend call (no retry). -/
theorem C3_backend_failure (sp text : Str) (h : classify text = Intent.Educational) :
    (handle_message sp text (fun _ => BackendOutcome.failure)).reply = APOLOGY_REPLY ∧
    (handle_message sp text (fun _ => BackendOutcome.failure)).loggedError = true ∧
    (handle_message sp text (fun _ => BackendOutcome.failure)).calls
      = [ask_gemini_request sp text] := by
  obtain ⟨h1, h2, h3⟩ := (classify_iffs text).2.2.1.mp h
  rw [handle_message_failure sp text h1 h2 h3]
  exact ⟨rfl, rfl, rfl⟩

/-- Claim C3, witness at a concrete Educational input. -/
theorem C3_witness :
    (handle_message [] ("what".data) (fun _ => BackendOutcome.failure)).reply
      = APOLOGY_REPLY :=
  (C3_backend_failure [] ("what".data) (by decide)).1

/-- Claim C4: for CreatorIdentity, CreatorContact and Rejected intents,
`handle_message` makes zero backend calls and returns its fixed template
string; for Educational intent it makes exactly one backend call — for every
backend oracle. -/
theorem C4_backend_calls (sp text : Str) (backend : GeminiRequest → BackendOutcome) :
    (classify text = Intent.CreatorIdentity →
      (handle_message sp text backend).calls = [] ∧
      (handle_message sp text backend).reply = CREATOR_REPLY) ∧
    (classify text = Intent.CreatorContact →
      (handle_message sp text backend).calls = [] ∧
      (handle_message sp text backend).reply = CREATOR_INFO_REPLY) ∧
    (classify text = Intent.Rejected →
      (handle_message sp text backend).calls = [] ∧
      (handle_message sp text backend).reply = REJECTION_REPLY) ∧
    (classify text = Intent.Educational →
      (handle_message sp text backend).calls.length = 1) := by
  refine ⟨?_, ?_, ?_, ?_⟩ <;> intro h
  · have h1 := (classify_iffs text).1.mp h
    simp [handle_message, h1]
  · obtain ⟨h1, h2⟩ := (classify_iffs text).2.1.mp h
    simp [handle_message, h1, h2]
  · obtain ⟨h1, h2, h3⟩ := (classify_iffs text).2.2.2.mp h
    simp [handle_message, h1, h2, h3]
  · obtain ⟨h1, h2, h3⟩ := (classify_iffs text).2.2.1.mp h
    simp only [handle_message, h1, h2, h3]
    cases backend (ask_gemini_request sp text) <;> simp

/-- Claim C4, witness: a Rejected input makes zero calls and an Educational
input makes exactly one call, at concrete inputs. -/
theorem C4_witness :
    (handle_message [] ("tell me a joke".data) (fun _ => BackendOutcome.failure)).calls = [] ∧
    (handle_message [] ("what".data) (fun _ => BackendOutcome.failure)).calls.length = 1 :=
  ⟨((C4_backend_calls [] ("tell me a joke".data) (fun _ => BackendOutcome.failure)).2.2.1
      (by decide)).1,
   (C4_backend_calls [] ("what".data) (fun _ => BackendOutcome.failure)).2.2.2 (by decide)⟩

/-- Claim C5: the empty string matches no creator phrase, no institution
marker, no lead word and no academic keyword, so it is classified Rejected
and receives the fixed refusal reply. -/
theorem C5_empty_rejected :
    classify [] = Intent.Rejected ∧
    is_creator_query [] = false ∧
    is_creator_info_query [] = false ∧
    containsSub ("unizik".data) (lower []) = false ∧
    containsSub ("nnamdi azikiwe".data) (lower []) = false ∧
    leadWordMatch (lower []) = false ∧
    EDU_KEYWORDS.any (fun kw => containsSub kw (lower [])) = false ∧
    (handle_message [] [] (fun _ => BackendOutcome.failure)).reply = REJECTION_REPLY ∧
    (handle_message [] [] (fun _ => BackendOutcome.failure)).calls = [] := by
  set_option maxRecDepth 4000 in decide

/-- Claim C6: classification is case-insensitive — every comparison is made
on the lower-cased text, so any two texts with the same lower-casing receive
the same Intent. -/
theorem C6_case_insensitive (t₁ t₂ : Str) (h : lower t₁ = lower t₂) :
    classify t₁ = classify t₂ := by
  have hcq : is_creator_query t₁ = is_creator_query t₂ := by
    simp only [is_creator_query]; rw [h]
  have hciq : is_creator_info_query t₁ = is_creator_info_query t₂ := by
    simp only [is_creator_info_query]; rw [h]
  have hedu : is_educational t₁ = is_educational t₂ := by
    simp only [is_educational]; rw [h]
  simp only [classify, hcq, hciq, hedu]

/-- Claim C6, witness: upper- and lower-case variants coincide, and both are
classified CreatorIdentity. -/
theorem C6_witness :
    classify ("WHO CREATED YOU".data) = classify ("who created you".data) ∧
    classify ("who created you".data) = Intent.CreatorIdentity :=
  ⟨C6_case_insensitive ("WHO CREATED YOU".data) ("who created you".data) (by decide),
   by decide⟩

/-- Claim C7: a text containing an institution marker (lower-cased) that
matches no creator-identity and no creator-contact phrase is classified
Educational, regardless of its other content. -/
theorem C7_institution_marker (text : Str)
    (hmark : containsSub ("unizik".data) (lower text) = true ∨
             containsSub ("nnamdi azikiwe".data) (lower text) = true)
    (h1 : is_creator_query text = false) (h2 : is_creator_info_query text = false) :
    classify text = Intent.Educational := by
  have h3 : is_educational text = true := (is_educational_iff text).mpr (Or.inl hmark)
  exact (classify_iffs text).2.2.1.mpr ⟨h1, h2, h3⟩

/-- Claim C7, witness at a concrete text containing the marker in mixed case. -/
theorem C7_witness : classify ("Tell me about UNIZIK".data) = Intent.Educational :=
  C7_institution_marker ("Tell me about UNIZIK".data)
    (Or.inl (by decide)) (by decide) (by decide)

/-- Claim C8: on an Educational-intent message, the single backend request
carries the prompt payload persona ++ user-turn marker ++ user text ++
assistant-turn marker (persona first), a generation ceiling of 800 tokens,
and the low sampling temperature 0.2 (2 tenths, below 1.0). -/
theorem C8_prompt_structure (sp text : Str) (backend : GeminiRequest → BackendOutcome)
    (h : classify text = Intent.Educational) :
    (handle_message sp text backend).calls = [ask_gemini_request sp text] ∧
    (ask_gemini_request sp text).contents = sp ++ USER_MARKER ++ text ++ ASSISTANT_MARKER ∧
    (ask_gemini_request sp text).max_output_tokens = 800 ∧
    (ask_gemini_request sp text).temperature_tenths = 2 ∧
    (ask_gemini_request sp text).temperature_tenths < 10 := by
  obtain ⟨h1, h2, h3⟩ := (classify_iffs text).2.2.1.mp h
  refine ⟨?_, rfl, rfl, rfl, by simp [ask_gemini_request]⟩
  simp only [handle_message, h1, h2, h3]
  cases backend (ask_gemini_request sp text) <;> simp

/-- Claim C8, witness at a concrete persona and Educational text. -/
theorem C8_witness :
    (handle_message ("persona".data) ("what".data) (fun _ => BackendOutcome.failure)).calls
      = [ask_gemini_request ("persona".data) ("what".data)] :=
  (C8_prompt_structure ("persona".data) ("what".data) (fun _ => BackendOutcome.failure)
    (by decide)).1

/-- Claim C9: classify is total and deterministic — equal inputs give equal
results, and every input (empty, whitespace-only or non-ASCII included) is
assigned one of the four Intents. -/
theorem C9_total_deterministic (t₁ t₂ : Str) (h : t₁ = t₂) :
    classify t₁ = classify t₂ ∧
    (classify t₁ = Intent.CreatorIdentity ∨ classify t₁ = Intent.CreatorContact ∨
     classify t₁ = Intent.Educational ∨ classify t₁ = Intent.Rejected) := by
  subst h
  refine ⟨rfl, ?_⟩
  cases h1 : is_creator_query t₁ <;> cases h2 : is_creator_info_query t₁ <;>
    cases h3 : is_educational t₁ <;> simp [classify, h1, h2, h3]

/-- Claim C9, witness at a concrete non-ASCII input. -/
theorem C9_witness :
    classify ("naïve ☃".data) = classify ("naïve ☃".data) ∧
    (classify ("naïve ☃".data) = Intent.CreatorIdentity ∨
     classify ("naïve ☃".data) = Intent.CreatorContact ∨
     classify ("naïve ☃".data) = Intent.Educational ∨
     classify ("naïve ☃".data) = Intent.Rejected) :=
  C9_total_deterministic ("naïve ☃".data) ("naïve ☃".data) rfl

/-- Claim C10: the academic-keyword check is plain substring containment, the
vocabulary includes the lead words what, why and how, and a keyword occurring
anywhere in the lower-cased text (even inside a longer word) of a text
matching no creator phrase forces the Educational intent. -/
theorem C10_keyword_substring (text : Str)
    (h1 : is_creator_query text = false) (h2 : is_creator_info_query text = false)
    (hkw : EDU_KEYWORDS.any (fun kw => containsSub kw (lower text)) = true) :
    classify text = Intent.Educational ∧
    "what".data ∈ EDU_KEYWORDS ∧ "why".data ∈ EDU_KEYWORDS ∧ "how".data ∈ EDU_KEYWORDS := by
  have h3 : is_educational text = true :=
    (is_educational_iff text).mpr (Or.inr (Or.inr hkw))
  exact ⟨(classify_iffs text).2.2.1.mpr ⟨h1, h2, h3⟩, by decide, by decide, by decide⟩

/-- Claim C10, witness: the keyword how occurs inside showcase, away from the
start of the text, and still forces the Educational intent. -/
theorem C10_witness : classify ("a lovely showcase".data) = Intent.Educational :=
  (C10_keyword_substring ("a lovely showcase".data)
    (by decide) (by decide) (by decide)).1
